import Mathlib

/-!
Shallow embedding of the `cones` Amethyst demo (src/projects/cones/src/main.rs).

The demo builds a 201 x 201 grid of cone entities, two tagged point lights and
one camera, then runs two per-frame systems: `MoveLightsSystem` repositions the
tagged lights on time-parameterised orbits, `MoveCameraSystem` repositions the
camera on a circular orbit and re-orients it towards the world origin.

f32 values are modelled as real numbers; the entity store is modelled as a list
of entities, each an optional bundle of the components the program attaches.
-/

noncomputable section

namespace Cones

/-- Three-dimensional vector of real coordinates, modelling nalgebra Vector3 of f32. -/
structure Vec3 where
  x : ℝ
  y : ℝ
  z : ℝ

namespace Vec3

/-- Componentwise subtraction. -/
def sub (a b : Vec3) : Vec3 := ⟨a.x - b.x, a.y - b.y, a.z - b.z⟩

/-- Dot product. -/
def dot (a b : Vec3) : ℝ := a.x * b.x + a.y * b.y + a.z * b.z

/-- Cross product, as nalgebra computes it. -/
def cross (a b : Vec3) : Vec3 :=
  ⟨a.y * b.z - a.z * b.y, a.z * b.x - a.x * b.z, a.x * b.y - a.y * b.x⟩

/-- Euclidean norm. -/
def norm (a : Vec3) : ℝ := Real.sqrt (a.dot a)

/-- nalgebra normalize: divide each coordinate by the norm. -/
def normalize (a : Vec3) : Vec3 := ⟨a.x / a.norm, a.y / a.norm, a.z / a.norm⟩

end Vec3

/-- A rotation stored by columns: the images of the local x, y, z axes. -/
structure Rot3 where
  xaxis : Vec3
  yaxis : Vec3
  zaxis : Vec3

/-- The identity rotation. -/
def Rot3.id : Rot3 := ⟨⟨1, 0, 0⟩, ⟨0, 1, 0⟩, ⟨0, 0, 1⟩⟩

/-- Apply a rotation matrix (given by columns) to a vector. -/
def Rot3.apply (r : Rot3) (v : Vec3) : Vec3 :=
  ⟨r.xaxis.x * v.x + r.yaxis.x * v.y + r.zaxis.x * v.z,
   r.xaxis.y * v.x + r.yaxis.y * v.y + r.zaxis.y * v.z,
   r.xaxis.z * v.x + r.yaxis.z * v.y + r.zaxis.z * v.z⟩

/-- Rotation composition: columns of the product are the images of the columns
of the second factor. -/
def Rot3.mul (a b : Rot3) : Rot3 := ⟨a.apply b.xaxis, a.apply b.yaxis, a.apply b.zaxis⟩

/-- Rotation by angle a about the x axis (UnitQuaternion::from_axis_angle on x),
stored by columns. -/
def rotX (a : ℝ) : Rot3 :=
  ⟨⟨1, 0, 0⟩, ⟨0, Real.cos a, Real.sin a⟩, ⟨0, -Real.sin a, Real.cos a⟩⟩

/-- Rotation by angle a about the y axis, stored by columns. -/
def rotY (a : ℝ) : Rot3 :=
  ⟨⟨Real.cos a, 0, -Real.sin a⟩, ⟨0, 1, 0⟩, ⟨Real.sin a, 0, Real.cos a⟩⟩

/-- nalgebra Rotation3::face_towards(dir, up): local z axis along dir,
local x axis along up x z, local y axis completing the basis. -/
def faceTowards (dir up : Vec3) : Rot3 :=
  let zaxis := dir.normalize
  let xaxis := (up.cross zaxis).normalize
  let yaxis := (zaxis.cross xaxis).normalize
  ⟨xaxis, yaxis, zaxis⟩

/-- amethyst Transform: translation, rotation and scale. -/
structure Transform where
  translation : Vec3
  rotation : Rot3
  scale : Vec3

namespace Transform

/-- Transform::default(): identity isometry, unit scale. -/
def default : Transform := ⟨⟨0, 0, 0⟩, Rot3.id, ⟨1, 1, 1⟩⟩

/-- Transform::set_translation_xyz. -/
def set_translation_xyz (t : Transform) (x y z : ℝ) : Transform :=
  { t with translation := ⟨x, y, z⟩ }

/-- Transform::set_rotation_x_axis: overwrite the rotation with a rotation
about the x axis. -/
def set_rotation_x_axis (t : Transform) (a : ℝ) : Transform :=
  { t with rotation := rotX a }

/-- Transform::prepend_rotation_y_axis: multiply a rotation about the y axis
onto the current rotation. -/
def prepend_rotation_y_axis (t : Transform) (a : ℝ) : Transform :=
  { t with rotation := Rot3.mul (rotY a) t.rotation }

/-- amethyst Transform::face_towards(target, up): the rotation is rebuilt from
the direction from the target to the current translation and the up reference. -/
def face_towards (t : Transform) (target up : Vec3) : Transform :=
  { t with rotation := faceTowards (t.translation.sub target) up }

end Transform

/-- The LightColorEnum of the demo: Red, Green, and the sentinel None. -/
inductive LightColorEnum
  | Red
  | Green
  | None
deriving DecidableEq

/-- The LightColor component wrapping a LightColorEnum. -/
structure LightColor where
  color : LightColorEnum
deriving DecidableEq

/-- The fields of PointLight the demo sets: intensity and rgb colour. -/
structure PointLight where
  intensity : ℝ
  color : ℝ × ℝ × ℝ

/-- Camera::standard_3d(width, height): the screen size it was built from. -/
structure Camera where
  width : ℝ
  height : ℝ

/-- Opaque mesh handle into the asset store. -/
abbrev MeshHandle := ℕ

/-- Opaque texture handle into the asset store. -/
abbrev TextureHandle := ℕ

/-- The fields of Material the demo sets: the shared albedo texture and the
per-entity metallic-roughness texture. -/
structure Material where
  albedo : TextureHandle
  metallic_roughness : TextureHandle

/-- An entity of the store: an optional instance of each component type the
program ever attaches. -/
structure Entity where
  transform : Option Transform := none
  light : Option PointLight := none
  lightColor : Option LightColor := none
  camera : Option Camera := none
  mesh : Option MeshHandle := none
  material : Option Material := none

/-- The position of an entity: the translation of its transform, when it has one. -/
def Entity.position (e : Entity) : Option Vec3 := e.transform.map Transform.translation

/-- Rotation and scale of the transform of an entity, when it has one. -/
def Entity.rotScale (e : Entity) : Option (Rot3 × Vec3) :=
  e.transform.map fun t => (t.rotation, t.scale)

/-- True exactly on entities whose LightColor component carries the Red tag. -/
def Entity.isRedTagged (e : Entity) : Bool :=
  match e.lightColor with
  | some ⟨LightColorEnum.Red⟩ => true
  | _ => false

/-- True exactly on entities whose LightColor component carries the Green tag. -/
def Entity.isGreenTagged (e : Entity) : Bool :=
  match e.lightColor with
  | some ⟨LightColorEnum.Green⟩ => true
  | _ => false

namespace MoveLightsSystem

/-- The body of MoveLightsSystem::run for one entity of the join over
(LightColor, Transform): entities missing either component are untouched. -/
def runEntity (seconds : ℝ) (e : Entity) : Entity :=
  match e.lightColor, e.transform with
  | some light_color, some transform =>
    let movement_y := -Real.sin (seconds * 10) * 100
    let movement_x := Real.cos (seconds * 10) * 100
    match light_color.color with
    | LightColorEnum.Red =>
        let moved := transform.set_translation_xyz movement_x movement_y (-3)
        { e with transform := some moved }
    | LightColorEnum.Green =>
        let moved := transform.set_translation_xyz movement_y movement_x (-3)
        { e with transform := some moved }
    | LightColorEnum.None => e
  | _, _ => e

/-- MoveLightsSystem::run over the whole store at absolute time `seconds`. -/
def run (seconds : ℝ) (store : List Entity) : List Entity :=
  store.map (runEntity seconds)

end MoveLightsSystem

namespace MoveCameraSystem

/-- The body of MoveCameraSystem::run for one entity of the join over
(Camera, Transform): set the translation on the circular orbit, then face the
world origin with up reference (0, 0, -1). -/
def runEntity (seconds : ℝ) (e : Entity) : Entity :=
  match e.camera, e.transform with
  | some _, some transform =>
      let placed :=
        transform.set_translation_xyz (-8 * Real.sin seconds) (8 * Real.cos seconds) (-5)
      let faced := placed.face_towards ⟨0, 0, 0⟩ ⟨0, 0, -1⟩
      { e with transform := some faced }
  | _, _ => e

/-- MoveCameraSystem::run over the whole store at absolute time `seconds`. -/
def run (seconds : ℝ) (store : List Entity) : List Entity :=
  store.map (runEntity seconds)

end MoveCameraSystem

/-- Grid position of loop indices (i, j): x = 2.5 * (i - n/2), y = 2.5 * (j - n/2),
z = 0, with n/2 truncating integer division as in the Rust i32 arithmetic. -/
def gridPos (n i j : ℕ) : Vec3 :=
  ⟨2.5 * (((i : ℤ) - (n : ℤ) / 2 : ℤ) : ℝ), 2.5 * (((j : ℤ) - (n : ℤ) / 2 : ℤ) : ℝ), 0⟩

/-- Transform of grid entity (i, j): default transform, translation set to the
grid position, rotation set to pi about the x axis. -/
def gridTransform (n i j : ℕ) : Transform :=
  (Transform.default.set_translation_xyz
      (gridPos n i j).x (gridPos n i j).y (gridPos n i j).z).set_rotation_x_axis Real.pi

/-- The metallic-roughness texture data generated for every grid entity:
LinSrgba::new(0.0, roughness, metallic, 0.0) with roughness = metallic = 0.0. -/
def metallicRoughnessData : ℝ × ℝ × ℝ × ℝ := (0, 0, 0, 0)

/-- The fresh textures the grid loop creates, one per loop iteration. -/
def gridTextures (n : ℕ) : List (ℝ × ℝ × ℝ × ℝ) :=
  (List.range n).flatMap fun _ => (List.range n).map fun _ => metallicRoughnessData

/-- Grid entity (i, j): transform, the shared mesh handle, and a per-entity
material pairing the shared albedo with a fresh metallic-roughness texture. -/
def gridEntity (n : ℕ) (mesh : MeshHandle) (albedo : TextureHandle) (i j : ℕ) : Entity :=
  { transform := some (gridTransform n i j),
    mesh := some mesh,
    material := some ⟨albedo, i * n + j + 1⟩ }

/-- The entities the nested grid loop of Example::on_start creates, in loop order. -/
def gridEntities (n : ℕ) (mesh : MeshHandle) (albedo : TextureHandle) : List Entity :=
  (List.range n).flatMap fun i => (List.range n).map fun j => gridEntity n mesh albedo i j

/-- light1: a point light of intensity 10 and pure red colour. -/
def light1 : PointLight := ⟨10, (1, 0, 0)⟩

/-- light2: a point light of intensity 10 and pure green colour. -/
def light2 : PointLight := ⟨10, (0, 1, 0)⟩

/-- light1_transform: default transform with translation (10, 0, -3). -/
def light1_transform : Transform := Transform.default.set_translation_xyz 10 0 (-3)

/-- light2_transform: default transform with translation (-10, 0, -3). -/
def light2_transform : Transform := Transform.default.set_translation_xyz (-10) 0 (-3)

/-- The first light entity: light1, its transform, and the Red tag. -/
def lightEntity1 : Entity :=
  { transform := some light1_transform,
    light := some light1,
    lightColor := some ⟨LightColorEnum.Red⟩ }

/-- The second light entity: light2, its transform, and the Green tag. -/
def lightEntity2 : Entity :=
  { transform := some light2_transform,
    light := some light2,
    lightColor := some ⟨LightColorEnum.Green⟩ }

/-- The two entities the light rig part of Example::on_start creates. -/
def lightRigEntities : List Entity := [lightEntity1, lightEntity2]

/-- Camera transform: default, translation set to (0, 0, -12), then a rotation
of pi about the y axis prepended. -/
def cameraTransform : Transform :=
  (Transform.default.set_translation_xyz 0 0 (-12)).prepend_rotation_y_axis Real.pi

/-- The camera entity: Camera::standard_3d of the screen size read at set-up,
plus the camera transform. -/
def cameraEntity (width height : ℝ) : Entity :=
  { transform := some cameraTransform,
    camera := some ⟨width, height⟩ }

/-- The one entity the camera rig part of Example::on_start creates. -/
def cameraRigEntities (width height : ℝ) : List Entity := [cameraEntity width height]

/-- All entities Example::on_start creates, in creation order: the grid, the
two lights, the camera. The screen size is read once, at set-up. -/
def onStartEntities (width height : ℝ) : List Entity :=
  gridEntities 201 0 0 ++ lightRigEntities ++ cameraRigEntities width height

/-- Iterated light motion updates at the given sequence of frame times. -/
def runManyLights (times : List ℝ) (store : List Entity) : List Entity :=
  times.foldl (fun s t => MoveLightsSystem.run t s) store

end Cones

namespace Cones

/-! Helper lemmas: how each system body acts on an entity of its join. -/

lemma runEntity_red (T : ℝ) (e : Entity) (tr : Transform)
    (htr : e.transform = some tr) (hlc : e.lightColor = some ⟨LightColorEnum.Red⟩) :
    MoveLightsSystem.runEntity T e =
      { e with transform := some (tr.set_translation_xyz
          (Real.cos (T * 10) * 100) (-Real.sin (T * 10) * 100) (-3)) } := by
  cases e
  simp_all [MoveLightsSystem.runEntity]

lemma runEntity_green (T : ℝ) (e : Entity) (tr : Transform)
    (htr : e.transform = some tr) (hlc : e.lightColor = some ⟨LightColorEnum.Green⟩) :
    MoveLightsSystem.runEntity T e =
      { e with transform := some (tr.set_translation_xyz
          (-Real.sin (T * 10) * 100) (Real.cos (T * 10) * 100) (-3)) } := by
  cases e
  simp_all [MoveLightsSystem.runEntity]

lemma runEntity_camera (T : ℝ) (e : Entity) (c : Camera) (tr : Transform)
    (hc : e.camera = some c) (htr : e.transform = some tr) :
    MoveCameraSystem.runEntity T e =
      { e with transform := some ((tr.set_translation_xyz
          (-8 * Real.sin T) (8 * Real.cos T) (-5)).face_towards ⟨0, 0, 0⟩ ⟨0, 0, -1⟩) } := by
  cases e
  simp_all [MoveCameraSystem.runEntity]

/-! Helper lemmas on the vector geometry used by face_towards. -/

namespace Vec3

lemma dot_self_nonneg (v : Vec3) : 0 ≤ v.dot v := by
  simp only [dot]
  nlinarith [mul_self_nonneg v.x, mul_self_nonneg v.y, mul_self_nonneg v.z]

lemma dot_comm (a b : Vec3) : a.dot b = b.dot a := by
  simp only [dot]; ring

lemma norm_mul_self (v : Vec3) : v.norm * v.norm = v.dot v := by
  simpa [norm] using Real.mul_self_sqrt (dot_self_nonneg v)

lemma norm_eq_one (v : Vec3) (h : v.dot v = 1) : v.norm = 1 := by
  simp [norm, h]

lemma dot_normalize_left (v w : Vec3) : (v.normalize).dot w = v.dot w / v.norm := by
  simp only [normalize, dot]
  ring

lemma normalize_dot_self (v : Vec3) (h : v.dot v ≠ 0) :
    (v.normalize).dot (v.normalize) = 1 := by
  have hn := norm_mul_self v
  have hq : (v.normalize).dot (v.normalize) = (v.dot v) / (v.norm * v.norm) := by
    simp only [normalize, dot]
    ring
  rw [hq, hn, div_self h]

lemma dot_cross_left (a b : Vec3) : (a.cross b).dot a = 0 := by
  simp only [cross, dot]; ring

lemma dot_cross_right (a b : Vec3) : (a.cross b).dot b = 0 := by
  simp only [cross, dot]; ring

lemma cross_dot_self (a b : Vec3) :
    (a.cross b).dot (a.cross b) = (a.dot a) * (b.dot b) - (a.dot b) * (a.dot b) := by
  simp only [cross, dot]; ring

lemma cross_normalize_dot (a b : Vec3) :
    (a.cross (b.normalize)).dot (a.cross (b.normalize)) =
      ((a.cross b).dot (a.cross b)) / (b.norm * b.norm) := by
  simp only [cross, normalize, dot]
  ring

end Vec3

/-- The rotation nalgebra face_towards builds is an orthonormal basis whose z
column is the normalised direction, provided the direction and its cross
product with the up reference are nonzero. -/
theorem faceTowards_props (dir up : Vec3)
    (hdir : dir.dot dir ≠ 0)
    (hcross : (up.cross dir).dot (up.cross dir) ≠ 0) :
    (faceTowards dir up).zaxis = dir.normalize ∧
    ((faceTowards dir up).zaxis).norm = 1 ∧
    ((faceTowards dir up).xaxis).norm = 1 ∧
    ((faceTowards dir up).yaxis).norm = 1 ∧
    ((faceTowards dir up).xaxis).dot ((faceTowards dir up).zaxis) = 0 ∧
    ((faceTowards dir up).yaxis).dot ((faceTowards dir up).zaxis) = 0 ∧
    ((faceTowards dir up).xaxis).dot ((faceTowards dir up).yaxis) = 0 := by
  have hz : (dir.normalize).dot (dir.normalize) = 1 := Vec3.normalize_dot_self dir hdir
  have hcxd := Vec3.cross_normalize_dot up dir
  have hnn := Vec3.norm_mul_self dir
  have hcx0 : (up.cross dir.normalize).dot (up.cross dir.normalize) ≠ 0 := by
    rw [hcxd, hnn]
    exact div_ne_zero hcross hdir
  have hx : ((up.cross dir.normalize).normalize).dot ((up.cross dir.normalize).normalize) = 1 :=
    Vec3.normalize_dot_self _ hcx0
  have hxz : ((up.cross dir.normalize).normalize).dot (dir.normalize) = 0 := by
    rw [Vec3.dot_normalize_left, Vec3.dot_cross_right, zero_div]
  have hy0 : ((dir.normalize).cross ((up.cross dir.normalize).normalize)).dot
      ((dir.normalize).cross ((up.cross dir.normalize).normalize)) = 1 := by
    rw [Vec3.cross_dot_self, hz, hx, Vec3.dot_comm, hxz]
    ring
  have hy0nz : ((dir.normalize).cross ((up.cross dir.normalize).normalize)).dot
      ((dir.normalize).cross ((up.cross dir.normalize).normalize)) ≠ 0 := by
    rw [hy0]; norm_num
  have hy := Vec3.normalize_dot_self _ hy0nz
  have hyz : (((dir.normalize).cross ((up.cross dir.normalize).normalize)).normalize).dot
      (dir.normalize) = 0 := by
    rw [Vec3.dot_normalize_left, Vec3.dot_cross_left, zero_div]
  have hxy : ((up.cross dir.normalize).normalize).dot
      (((dir.normalize).cross ((up.cross dir.normalize).normalize)).normalize) = 0 := by
    rw [Vec3.dot_comm, Vec3.dot_normalize_left, Vec3.dot_cross_right, zero_div]
  refine ⟨rfl, Vec3.norm_eq_one _ hz, Vec3.norm_eq_one _ hx, Vec3.norm_eq_one _ hy,
    hxz, hyz, hxy⟩

end Cones

namespace Cones

/-! Helper lemmas: per-entity behaviour of the two systems off their joins. -/

lemma lights_runEntity_untagged (T : ℝ) (e : Entity) (h : e.lightColor = none) :
    MoveLightsSystem.runEntity T e = e := by
  cases e
  simp_all [MoveLightsSystem.runEntity]

lemma lights_runEntity_none_tag (T : ℝ) (e : Entity)
    (h : e.lightColor = some ⟨LightColorEnum.None⟩) :
    MoveLightsSystem.runEntity T e = e := by
  cases e with
  | mk etr el elc ecam em emat =>
    simp only at h
    subst h
    cases etr <;> rfl

lemma camera_runEntity_nocam (T : ℝ) (e : Entity) (h : e.camera = none) :
    MoveCameraSystem.runEntity T e = e := by
  cases e with
  | mk etr el elc ecam em emat =>
    simp only at h
    subst h
    cases etr <;> rfl

lemma lights_runEntity_idem (T : ℝ) (e : Entity) :
    MoveLightsSystem.runEntity T (MoveLightsSystem.runEntity T e) =
      MoveLightsSystem.runEntity T e := by
  cases e with
  | mk etr el elc ecam em emat =>
    cases elc with
    | none => cases etr <;> rfl
    | some lc =>
      cases etr with
      | none => rfl
      | some tr =>
        cases lc with
        | mk col => cases col <;> rfl

lemma camera_runEntity_idem (T : ℝ) (e : Entity) :
    MoveCameraSystem.runEntity T (MoveCameraSystem.runEntity T e) =
      MoveCameraSystem.runEntity T e := by
  cases e with
  | mk etr el elc ecam em emat =>
    cases ecam with
    | none => cases etr <;> rfl
    | some c =>
      cases etr with
      | none => rfl
      | some tr => rfl

lemma lights_runEntity_rotScale (T : ℝ) (e : Entity) :
    (MoveLightsSystem.runEntity T e).rotScale = e.rotScale := by
  cases e with
  | mk etr el elc ecam em emat =>
    cases elc with
    | none => cases etr <;> rfl
    | some lc =>
      cases etr with
      | none => rfl
      | some tr =>
        cases lc with
        | mk col => cases col <;> rfl

lemma lights_run_rotScale (T : ℝ) (store : List Entity) :
    (MoveLightsSystem.run T store).map Entity.rotScale = store.map Entity.rotScale := by
  simp only [MoveLightsSystem.run, List.map_map]
  exact List.map_congr_left fun e _ => lights_runEntity_rotScale T e

lemma lights_runEntity_lightColor (T : ℝ) (e : Entity) :
    (MoveLightsSystem.runEntity T e).lightColor = e.lightColor := by
  cases e with
  | mk etr el elc ecam em emat =>
    cases elc with
    | none => cases etr <;> rfl
    | some lc =>
      cases etr with
      | none => rfl
      | some tr =>
        cases lc with
        | mk col => cases col <;> rfl

lemma camera_runEntity_lightColor (T : ℝ) (e : Entity) :
    (MoveCameraSystem.runEntity T e).lightColor = e.lightColor := by
  cases e with
  | mk etr el elc ecam em emat =>
    cases ecam with
    | none => cases etr <;> rfl
    | some c => cases etr <;> rfl

/-! Helper lemmas on the grid population. -/

lemma gridEntities_length (n : ℕ) (mesh albedo : ℕ) :
    (gridEntities n mesh albedo).length = n * n := by
  simp [gridEntities, List.length_flatMap, Function.comp_def, List.map_const',
    List.sum_replicate, smul_eq_mul]

lemma gridEntity_position (n mesh albedo i j : ℕ) :
    (gridEntity n mesh albedo i j).position = some (gridPos n i j) := rfl

lemma mem_gridEntities {n mesh albedo : ℕ} {e : Entity} :
    e ∈ gridEntities n mesh albedo ↔
      ∃ i < n, ∃ j < n, e = gridEntity n mesh albedo i j := by
  simp [gridEntities, List.mem_flatMap, List.mem_map, List.mem_range, eq_comm]

lemma gridPos_x (i j : ℕ) : (gridPos 201 i j).x = 2.5 * ((i : ℝ) - 100) := by
  have h : ((201 : ℤ) / 2 : ℤ) = 100 := by decide
  simp [gridPos, h]

lemma gridPos_y (i j : ℕ) : (gridPos 201 i j).y = 2.5 * ((j : ℝ) - 100) := by
  have h : ((201 : ℤ) / 2 : ℤ) = 100 := by decide
  simp [gridPos, h]

lemma gridX_injective : ∀ i i' : ℕ,
    (2.5 : ℝ) * ((i : ℝ) - 100) = 2.5 * ((i' : ℝ) - 100) → i = i' := by
  intro i i' h
  have h2 : ((i : ℝ) - 100) = ((i' : ℝ) - 100) :=
    mul_left_cancel₀ (by norm_num : (2.5 : ℝ) ≠ 0) h
  have h3 : (i : ℝ) = (i' : ℝ) := by linarith
  exact_mod_cast h3

lemma grid_positions_nodup (mesh albedo : ℕ) :
    ((gridEntities 201 mesh albedo).map Entity.position).Nodup := by
  have hmap : (gridEntities 201 mesh albedo).map Entity.position =
      (List.range 201).flatMap
        (fun i => (List.range 201).map fun j => some (gridPos 201 i j)) := by
    simp [gridEntities, List.map_flatMap, List.map_map, Function.comp_def,
      gridEntity_position]
  rw [hmap, List.nodup_flatMap]
  constructor
  · intro i _
    refine List.Nodup.map ?_ (List.nodup_range 201)
    intro j j' hjj
    have hy : (gridPos 201 i j).y = (gridPos 201 i j').y :=
      congrArg Vec3.y (Option.some.inj hjj)
    rw [gridPos_y, gridPos_y] at hy
    exact gridX_injective j j' hy
  · refine (List.pairwise_lt_range 201).imp ?_
    intro i i' hlt a ha ha'
    simp only [List.mem_map, List.mem_range] at ha ha'
    obtain ⟨j, _, hj⟩ := ha
    obtain ⟨j', _, hj'⟩ := ha'
    rw [← hj] at hj'
    have hx : (gridPos 201 i j).x = (gridPos 201 i' j').x :=
      congrArg Vec3.x (Option.some.inj hj'.symm)
    rw [gridPos_x, gridPos_x] at hx
    exact absurd (gridX_injective i i' hx) (Nat.ne_of_lt hlt)

lemma grid_countP_red (mesh albedo : ℕ) :
    (gridEntities 201 mesh albedo).countP Entity.isRedTagged = 0 := by
  rw [List.countP_eq_zero]
  intro e he
  obtain ⟨i, _, j, _, rfl⟩ := mem_gridEntities.mp he
  simp [Entity.isRedTagged, gridEntity]

lemma grid_countP_green (mesh albedo : ℕ) :
    (gridEntities 201 mesh albedo).countP Entity.isGreenTagged = 0 := by
  rw [List.countP_eq_zero]
  intro e he
  obtain ⟨i, _, j, _, rfl⟩ := mem_gridEntities.mp he
  simp [Entity.isGreenTagged, gridEntity]

lemma grid_countP_camera (mesh albedo : ℕ) :
    (gridEntities 201 mesh albedo).countP (fun e => e.camera.isSome) = 0 := by
  rw [List.countP_eq_zero]
  intro e he
  obtain ⟨i, _, j, _, rfl⟩ := mem_gridEntities.mp he
  simp [gridEntity]

lemma cameraTransform_rotation : cameraTransform.rotation = rotY Real.pi := by
  simp only [cameraTransform, Transform.prepend_rotation_y_axis,
    Transform.set_translation_xyz, Transform.default, Rot3.mul, Rot3.apply, Rot3.id, rotY]
  norm_num

end Cones

namespace Cones

/-- C1: for every time T, the light motion update sets the position of a
Red-tagged light to (cos(10 T) * 100, -sin(10 T) * 100, -3) and the position of
a Green-tagged light to (-sin(10 T) * 100, cos(10 T) * 100, -3); at T = 0 the
Red light sits at (100, 0, -3) and the Green light at (0, 100, -3). -/
theorem C1_light_motion (T : ℝ) (store : List Entity) (e : Entity) (tr : Transform)
    (htr : e.transform = some tr) :
    (e ∈ store → MoveLightsSystem.runEntity T e ∈ MoveLightsSystem.run T store) ∧
    (e.lightColor = some ⟨LightColorEnum.Red⟩ →
      (MoveLightsSystem.runEntity T e).position =
          some ⟨Real.cos (10 * T) * 100, -Real.sin (10 * T) * 100, -3⟩ ∧
      (MoveLightsSystem.runEntity 0 e).position = some ⟨100, 0, -3⟩) ∧
    (e.lightColor = some ⟨LightColorEnum.Green⟩ →
      (MoveLightsSystem.runEntity T e).position =
          some ⟨-Real.sin (10 * T) * 100, Real.cos (10 * T) * 100, -3⟩ ∧
      (MoveLightsSystem.runEntity 0 e).position = some ⟨0, 100, -3⟩) := by
  refine ⟨fun he => List.mem_map_of_mem _ he, fun hred => ⟨?_, ?_⟩, fun hgreen => ⟨?_, ?_⟩⟩
  · rw [runEntity_red T e tr htr hred]
    simp [Entity.position, Transform.set_translation_xyz, mul_comm]
  · rw [runEntity_red 0 e tr htr hred]
    simp [Entity.position, Transform.set_translation_xyz]
  · rw [runEntity_green T e tr htr hgreen]
    simp [Entity.position, Transform.set_translation_xyz, mul_comm]
  · rw [runEntity_green 0 e tr htr hgreen]
    simp [Entity.position, Transform.set_translation_xyz]

/-- Witness for C1: the Red rig light at time 1, with every hypothesis
discharged on that concrete entity. -/
theorem C1_light_motion_witness :
    lightEntity1.transform = some light1_transform ∧
    ((lightEntity1 ∈ lightRigEntities →
        MoveLightsSystem.runEntity 1 lightEntity1 ∈ MoveLightsSystem.run 1 lightRigEntities) ∧
     (lightEntity1.lightColor = some ⟨LightColorEnum.Red⟩ →
        (MoveLightsSystem.runEntity 1 lightEntity1).position =
            some ⟨Real.cos (10 * 1) * 100, -Real.sin (10 * 1) * 100, -3⟩ ∧
        (MoveLightsSystem.runEntity 0 lightEntity1).position = some ⟨100, 0, -3⟩) ∧
     (lightEntity1.lightColor = some ⟨LightColorEnum.Green⟩ →
        (MoveLightsSystem.runEntity 1 lightEntity1).position =
            some ⟨-Real.sin (10 * 1) * 100, Real.cos (10 * 1) * 100, -3⟩ ∧
        (MoveLightsSystem.runEntity 0 lightEntity1).position = some ⟨0, 100, -3⟩)) :=
  ⟨rfl, C1_light_motion 1 lightRigEntities lightEntity1 light1_transform rfl⟩

/-- C2: for every time T, the camera motion update sets the camera position to
(-8 sin T, 8 cos T, -5); at T = 0 that is (0, 8, -5) and at T = pi/2 it is
(-8, 0, -5), exactly in the real-number model. -/
theorem C2_camera_motion (T : ℝ) (e : Entity) (c : Camera) (tr : Transform)
    (hc : e.camera = some c) (htr : e.transform = some tr) :
    (MoveCameraSystem.runEntity T e).position =
        some ⟨-8 * Real.sin T, 8 * Real.cos T, -5⟩ ∧
    (MoveCameraSystem.runEntity 0 e).position = some ⟨0, 8, -5⟩ ∧
    (MoveCameraSystem.runEntity (Real.pi / 2) e).position = some ⟨-8, 0, -5⟩ := by
  refine ⟨?_, ?_, ?_⟩
  · rw [runEntity_camera T e c tr hc htr]
    simp [Entity.position, Transform.set_translation_xyz, Transform.face_towards]
  · rw [runEntity_camera 0 e c tr hc htr]
    simp [Entity.position, Transform.set_translation_xyz, Transform.face_towards]
  · rw [runEntity_camera (Real.pi / 2) e c tr hc htr]
    simp [Entity.position, Transform.set_translation_xyz, Transform.face_towards]

/-- Witness for C2: the rig camera entity, with every hypothesis discharged on
that concrete entity. -/
theorem C2_camera_motion_witness :
    (cameraEntity 800 600).camera = some ⟨800, 600⟩ ∧
    (cameraEntity 800 600).transform = some cameraTransform ∧
    ((MoveCameraSystem.runEntity 1 (cameraEntity 800 600)).position =
        some ⟨-8 * Real.sin 1, 8 * Real.cos 1, -5⟩ ∧
     (MoveCameraSystem.runEntity 0 (cameraEntity 800 600)).position = some ⟨0, 8, -5⟩ ∧
     (MoveCameraSystem.runEntity (Real.pi / 2) (cameraEntity 800 600)).position =
        some ⟨-8, 0, -5⟩) :=
  ⟨rfl, rfl, C2_camera_motion 1 (cameraEntity 800 600) ⟨800, 600⟩ cameraTransform rfl rfl⟩

/-- C3: on every invocation of the camera motion update, after the position is
set the orientation is rebuilt to face the world origin with up reference
(0, 0, -1): the rotation equals face_towards of the new translation, its z column
is the normalised direction from origin to camera, and the three columns form
an orthonormal basis. -/
theorem C3_camera_orientation (T : ℝ) (e : Entity) (c : Camera) (tr : Transform)
    (hc : e.camera = some c) (htr : e.transform = some tr) :
    ∃ tr2 : Transform, (MoveCameraSystem.runEntity T e).transform = some tr2 ∧
      tr2.rotation = faceTowards (tr2.translation.sub ⟨0, 0, 0⟩) ⟨0, 0, -1⟩ ∧
      tr2.rotation.zaxis = (tr2.translation.sub ⟨0, 0, 0⟩).normalize ∧
      tr2.rotation.zaxis.norm = 1 ∧
      tr2.rotation.xaxis.norm = 1 ∧
      tr2.rotation.yaxis.norm = 1 ∧
      tr2.rotation.xaxis.dot tr2.rotation.zaxis = 0 ∧
      tr2.rotation.yaxis.dot tr2.rotation.zaxis = 0 ∧
      tr2.rotation.xaxis.dot tr2.rotation.yaxis = 0 := by
  rw [runEntity_camera T e c tr hc htr]
  refine ⟨_, rfl, ?_⟩
  simp only [Transform.face_towards, Transform.set_translation_xyz]
  have hsc := Real.sin_sq_add_cos_sq T
  have hdir : ((Vec3.mk (-8 * Real.sin T) (8 * Real.cos T) (-5)).sub ⟨0, 0, 0⟩).dot
      ((Vec3.mk (-8 * Real.sin T) (8 * Real.cos T) (-5)).sub ⟨0, 0, 0⟩) ≠ 0 := by
    have h89 : ((Vec3.mk (-8 * Real.sin T) (8 * Real.cos T) (-5)).sub ⟨0, 0, 0⟩).dot
        ((Vec3.mk (-8 * Real.sin T) (8 * Real.cos T) (-5)).sub ⟨0, 0, 0⟩) = 89 := by
      simp only [Vec3.sub, Vec3.dot]
      linear_combination 64 * hsc
    rw [h89]; norm_num
  have hcross : ((Vec3.mk 0 0 (-1)).cross
        ((Vec3.mk (-8 * Real.sin T) (8 * Real.cos T) (-5)).sub ⟨0, 0, 0⟩)).dot
      ((Vec3.mk 0 0 (-1)).cross
        ((Vec3.mk (-8 * Real.sin T) (8 * Real.cos T) (-5)).sub ⟨0, 0, 0⟩)) ≠ 0 := by
    have h64 : ((Vec3.mk 0 0 (-1)).cross
          ((Vec3.mk (-8 * Real.sin T) (8 * Real.cos T) (-5)).sub ⟨0, 0, 0⟩)).dot
        ((Vec3.mk 0 0 (-1)).cross
          ((Vec3.mk (-8 * Real.sin T) (8 * Real.cos T) (-5)).sub ⟨0, 0, 0⟩)) = 64 := by
      simp only [Vec3.sub, Vec3.cross, Vec3.dot]
      linear_combination 64 * hsc
    rw [h64]; norm_num
  have hp := faceTowards_props _ _ hdir hcross
  exact ⟨trivial, hp⟩

/-- Witness for C3: the rig camera entity at time 0, hypotheses discharged on
that concrete entity. -/
theorem C3_camera_orientation_witness :
    (cameraEntity 800 600).camera = some ⟨800, 600⟩ ∧
    (cameraEntity 800 600).transform = some cameraTransform ∧
    (∃ tr2 : Transform,
      (MoveCameraSystem.runEntity 0 (cameraEntity 800 600)).transform = some tr2 ∧
      tr2.rotation = faceTowards (tr2.translation.sub ⟨0, 0, 0⟩) ⟨0, 0, -1⟩ ∧
      tr2.rotation.zaxis = (tr2.translation.sub ⟨0, 0, 0⟩).normalize ∧
      tr2.rotation.zaxis.norm = 1 ∧
      tr2.rotation.xaxis.norm = 1 ∧
      tr2.rotation.yaxis.norm = 1 ∧
      tr2.rotation.xaxis.dot tr2.rotation.zaxis = 0 ∧
      tr2.rotation.yaxis.dot tr2.rotation.zaxis = 0 ∧
      tr2.rotation.xaxis.dot tr2.rotation.yaxis = 0) :=
  ⟨rfl, rfl,
    C3_camera_orientation 0 (cameraEntity 800 600) ⟨800, 600⟩ cameraTransform rfl rfl⟩

end Cones

namespace Cones

/-- C4: the grid populator with n = 201 creates exactly 40401 entities, one per
pair (i, j) in [0, 201) x [0, 201), at position (2.5 (i - 100), 2.5 (j - 100), 0)
with 100 = 201 / 2 by truncating integer division; all positions are pairwise
distinct, every x and y coordinate lies between -250 and 250, and both extremes
are attained. -/
theorem C4_grid_population (mesh albedo : ℕ) :
    (gridEntities 201 mesh albedo).length = 40401 ∧
    (∀ i j : ℕ, i < 201 → j < 201 →
        gridEntity 201 mesh albedo i j ∈ gridEntities 201 mesh albedo) ∧
    (∀ i j : ℕ, (gridEntity 201 mesh albedo i j).position =
        some ⟨2.5 * ((i : ℝ) - 100), 2.5 * ((j : ℝ) - 100), 0⟩) ∧
    ((gridEntities 201 mesh albedo).map Entity.position).Nodup ∧
    (∀ e ∈ gridEntities 201 mesh albedo, ∃ v : Vec3, e.position = some v ∧
        -250 ≤ v.x ∧ v.x ≤ 250 ∧ -250 ≤ v.y ∧ v.y ≤ 250 ∧ v.z = 0) ∧
    (∃ e ∈ gridEntities 201 mesh albedo, ∃ v : Vec3, e.position = some v ∧
        v.x = -250 ∧ v.y = -250) ∧
    (∃ e ∈ gridEntities 201 mesh albedo, ∃ v : Vec3, e.position = some v ∧
        v.x = 250 ∧ v.y = 250) := by
  refine ⟨by rw [gridEntities_length], ?_, ?_, grid_positions_nodup mesh albedo,
    ?_, ?_, ?_⟩
  · intro i j hi hj
    exact mem_gridEntities.mpr ⟨i, hi, j, hj, rfl⟩
  · intro i j
    rw [gridEntity_position]
    have hz : (gridPos 201 i j).z = 0 := rfl
    have := gridPos_x i j
    have := gridPos_y i j
    cases hpos : gridPos 201 i j
    simp_all
  · intro e he
    obtain ⟨i, hi, j, hj, rfl⟩ := mem_gridEntities.mp he
    refine ⟨gridPos 201 i j, gridEntity_position 201 mesh albedo i j, ?_, ?_, ?_, ?_, rfl⟩
    · rw [gridPos_x]
      have : (0 : ℝ) ≤ (i : ℝ) := Nat.cast_nonneg i
      linarith
    · rw [gridPos_x]
      have : (i : ℝ) ≤ 200 := by exact_mod_cast Nat.lt_succ_iff.mp hi
      linarith
    · rw [gridPos_y]
      have : (0 : ℝ) ≤ (j : ℝ) := Nat.cast_nonneg j
      linarith
    · rw [gridPos_y]
      have : (j : ℝ) ≤ 200 := by exact_mod_cast Nat.lt_succ_iff.mp hj
      linarith
  · refine ⟨gridEntity 201 mesh albedo 0 0,
      mem_gridEntities.mpr ⟨0, by norm_num, 0, by norm_num, rfl⟩,
      gridPos 201 0 0, gridEntity_position 201 mesh albedo 0 0, ?_, ?_⟩
    · rw [gridPos_x]; norm_num
    · rw [gridPos_y]; norm_num
  · refine ⟨gridEntity 201 mesh albedo 200 200,
      mem_gridEntities.mpr ⟨200, by norm_num, 200, by norm_num, rfl⟩,
      gridPos 201 200 200, gridEntity_position 201 mesh albedo 200 200, ?_, ?_⟩
    · rw [gridPos_x]; norm_num
    · rw [gridPos_y]; norm_num

/-- C5: the light rig creates exactly two point-light entities: intensity 10,
pure red colour, position (10, 0, -3), tag Red; and intensity 10, pure green
colour, position (-10, 0, -3), tag Green. Over the whole set-up store exactly
one Red-tagged and one Green-tagged entity exist, and neither per-frame system
ever changes a LightColor component, so this holds for the lifetime of the run. -/
theorem C5_light_rig (width height : ℝ) :
    lightRigEntities = [lightEntity1, lightEntity2] ∧
    lightEntity1.light = some ⟨10, (1, 0, 0)⟩ ∧
    lightEntity1.position = some ⟨10, 0, -3⟩ ∧
    lightEntity1.lightColor = some ⟨LightColorEnum.Red⟩ ∧
    lightEntity2.light = some ⟨10, (0, 1, 0)⟩ ∧
    lightEntity2.position = some ⟨-10, 0, -3⟩ ∧
    lightEntity2.lightColor = some ⟨LightColorEnum.Green⟩ ∧
    (onStartEntities width height).countP Entity.isRedTagged = 1 ∧
    (onStartEntities width height).countP Entity.isGreenTagged = 1 ∧
    (∀ (T : ℝ) (store : List Entity),
        (MoveLightsSystem.run T store).map Entity.lightColor =
          store.map Entity.lightColor) ∧
    (∀ (T : ℝ) (store : List Entity),
        (MoveCameraSystem.run T store).map Entity.lightColor =
          store.map Entity.lightColor) := by
  refine ⟨rfl, rfl, rfl, rfl, rfl, rfl, rfl, ?_, ?_, ?_, ?_⟩
  · rw [onStartEntities, List.countP_append, List.countP_append, grid_countP_red]
    rfl
  · rw [onStartEntities, List.countP_append, List.countP_append, grid_countP_green]
    rfl
  · intro T store
    simp only [MoveLightsSystem.run, List.map_map]
    exact List.map_congr_left fun e _ => lights_runEntity_lightColor T e
  · intro T store
    simp only [MoveCameraSystem.run, List.map_map]
    exact List.map_congr_left fun e _ => camera_runEntity_lightColor T e

/-- C6: the camera rig creates exactly one camera entity, sized to the screen
width and height read once at set-up, at position (0, 0, -12), with orientation
equal to a 180 degree rotation about the y axis; it is the only entity of the
set-up store carrying a Camera component. -/
theorem C6_camera_rig (width height : ℝ) :
    cameraRigEntities width height = [cameraEntity width height] ∧
    (cameraEntity width height).camera = some ⟨width, height⟩ ∧
    (cameraEntity width height).position = some ⟨0, 0, -12⟩ ∧
    cameraTransform.rotation = rotY Real.pi ∧
    (onStartEntities width height).countP (fun e => e.camera.isSome) = 1 := by
  refine ⟨rfl, rfl, rfl, cameraTransform_rotation, ?_⟩
  rw [onStartEntities, List.countP_append, List.countP_append, grid_countP_camera]
  rfl

/-- C7: the light motion update leaves entities without a LightColor component
unchanged, and entities whose tag is None unchanged; the camera motion update
leaves entities without a Camera component unchanged; over a whole store of
such entities either run is the identity. -/
theorem C7_untagged_noop (T : ℝ) (e : Entity) :
    (e.lightColor = none → MoveLightsSystem.runEntity T e = e) ∧
    (e.lightColor = some ⟨LightColorEnum.None⟩ → MoveLightsSystem.runEntity T e = e) ∧
    (e.camera = none → MoveCameraSystem.runEntity T e = e) ∧
    (∀ store : List Entity, (∀ x ∈ store, x.lightColor = none) →
        MoveLightsSystem.run T store = store) ∧
    (∀ store : List Entity, (∀ x ∈ store, x.camera = none) →
        MoveCameraSystem.run T store = store) := by
  refine ⟨lights_runEntity_untagged T e, lights_runEntity_none_tag T e,
    camera_runEntity_nocam T e, fun store h => ?_, fun store h => ?_⟩
  · calc MoveLightsSystem.run T store
        = store.map id := List.map_congr_left fun x hx =>
          lights_runEntity_untagged T x (h x hx)
      _ = store := List.map_id store
  · calc MoveCameraSystem.run T store
        = store.map id := List.map_congr_left fun x hx =>
          camera_runEntity_nocam T x (h x hx)
      _ = store := List.map_id store

/-- C8: for every time T and every starting store, running the light motion
update (respectively the camera motion update) twice in succession with the
same T produces the same store as running it once: each update is idempotent
because the transforms it writes depend only on T. -/
theorem C8_idempotent (T : ℝ) (store : List Entity) :
    MoveLightsSystem.run T (MoveLightsSystem.run T store) = MoveLightsSystem.run T store ∧
    MoveCameraSystem.run T (MoveCameraSystem.run T store) = MoveCameraSystem.run T store := by
  constructor
  · simp only [MoveLightsSystem.run, List.map_map]
    exact List.map_congr_left fun e _ => lights_runEntity_idem T e
  · simp only [MoveCameraSystem.run, List.map_map]
    exact List.map_congr_left fun e _ => camera_runEntity_idem T e

/-- C9: the grid populator is total in the grid size: for every n it creates
exactly n * n entities and n * n derived textures; for n = 0 it creates no
entities and no textures and leaves any entity store unchanged. -/
theorem C9_grid_any_size (n : ℕ) (mesh albedo : ℕ) :
    (gridEntities n mesh albedo).length = n * n ∧
    (gridTextures n).length = n * n ∧
    gridEntities 0 mesh albedo = [] ∧
    gridTextures 0 = [] ∧
    ∀ store : List Entity, store ++ gridEntities 0 mesh albedo = store := by
  refine ⟨gridEntities_length n mesh albedo, ?_, rfl, rfl, fun store => ?_⟩
  · simp [gridTextures, List.length_flatMap, Function.comp_def, List.map_const',
      List.sum_replicate, smul_eq_mul]
  · simp [gridEntities]

/-- C10: the light motion update writes only the translation of a transform:
after one run, and after any sequence of runs, the rotation and scale of every
transform in the store are unchanged from their set-up values. -/
theorem C10_only_translation (times : List ℝ) (store : List Entity) :
    (runManyLights times store).map Entity.rotScale = store.map Entity.rotScale ∧
    ∀ t : ℝ, (MoveLightsSystem.run t store).map Entity.rotScale =
        store.map Entity.rotScale := by
  refine ⟨?_, fun t => lights_run_rotScale t store⟩
  induction times generalizing store with
  | nil => rfl
  | cons t ts ih =>
      calc (runManyLights (t :: ts) store).map Entity.rotScale
          = (runManyLights ts (MoveLightsSystem.run t store)).map Entity.rotScale := rfl
        _ = (MoveLightsSystem.run t store).map Entity.rotScale := ih _
        _ = store.map Entity.rotScale := lights_run_rotScale t store

end Cones
